import Mathlib

/-!
Verification of the hand-scan detection debounce state machine from
src/app/scan/page.tsx. The component converts a noisy per-frame stream of
hand observations into two discrete confirmation events (left, then right),
each requiring a sustained run of qualifying frames.

The embedding follows the source closely:
- ScanStep mirrors the ScanStep union type of the page.
- ScanState collects the React state cells the frame callback reads and
  writes (step, detectionCount, handsDetected, scanning, error, stream,
  showVideo) plus a flag recording that the delayed reveal was scheduled.
- onResults embeds the results callback installed on the detector.
- handleScanSuccess, stopCamera, resetScan and requestCameraPermission
  embed the functions of the same names.
- captureFrame embeds one iteration of the frame pump: on a successful
  analysis the results callback fires with the number of detected hands;
  when the send call throws, the catch block only logs and the callback
  never fires for that frame.
-/

namespace FuturePrediction

/-- The ScanStep union type of the page. -/
inductive ScanStep where
  | idle
  | leftHand
  | rightHand
  | scanning
  | complete
deriving DecidableEq

/-- The mutable state cells of the scan page that the detection logic
reads and writes. -/
structure ScanState where
  step : ScanStep
  detectionCount : Nat
  handsDetectedLeft : Bool
  handsDetectedRight : Bool
  scanning : Bool
  error : String
  mediapipeLoaded : Bool
  streamActive : Bool
  showVideo : Bool
  revealScheduled : Bool
deriving DecidableEq

/-- The detectionThreshold constant of the page: number of consecutive
detections needed. -/
def detectionThreshold : Nat := 30

/-- Embeds stopCamera: stops the media stream tracks, cancels the pending
animation frame and closes the detector, i.e. the frame source is no
longer active. -/
def stopCamera (s : ScanState) : ScanState :=
  { s with streamActive := false }

/-- Embeds handleScanSuccess. It first clears the scanning flag and the
detection count, then confirms the left hand if it is not yet confirmed,
else confirms the right hand if that is not yet confirmed, stopping the
camera and scheduling the delayed reveal of the prediction video. -/
def handleScanSuccess (s : ScanState) : ScanState :=
  let s1 := { s with scanning := false, detectionCount := 0 }
  if s1.handsDetectedLeft = false then
    { s1 with handsDetectedLeft := true, step := ScanStep.rightHand }
  else if s1.handsDetectedRight = false then
    let s2 := stopCamera { s1 with handsDetectedRight := true, step := ScanStep.complete }
    { s2 with revealScheduled := true }
  else
    s1

/-- Embeds the onResults callback, restricted to the state cells (the
canvas drawing has no effect on them). numHands is the length of
results.multiHandLandmarks. When hands are present and a hand-awaiting
step is active the count is incremented, firing handleScanSuccess and
returning 0 when the incremented count reaches the threshold; when no
hands are present and a hand-awaiting step is active the count is reset
to 0; in every other step the observation changes nothing. -/
def onResults (numHands : Nat) (s : ScanState) : ScanState :=
  if 0 < numHands then
    if s.step = ScanStep.leftHand ∨ s.step = ScanStep.rightHand then
      let newCount := s.detectionCount + 1
      if detectionThreshold ≤ newCount then
        handleScanSuccess { s with detectionCount := 0 }
      else
        { s with detectionCount := newCount }
    else s
  else
    if s.step = ScanStep.leftHand ∨ s.step = ScanStep.rightHand then
      { s with detectionCount := 0 }
    else s

/-- The outcome of analyzing one frame: either the detector yields a
result with some number of hand landmark sets, or the send call throws. -/
inductive FrameResult where
  | hands (numHands : Nat)
  | sendError
deriving DecidableEq

/-- Embeds one iteration of captureFrame: on success the onResults
callback fires with the detected hands; when send throws, the catch block
only logs to the console, so no state cell changes, and the loop
schedules the next frame either way. -/
def captureFrame (r : FrameResult) (s : ScanState) : ScanState :=
  match r with
  | FrameResult.hands n => onResults n s
  | FrameResult.sendError => s

/-- The frame pump applied to a whole sequence of frame outcomes, in
capture order. -/
def processFrames : List FrameResult → ScanState → ScanState
  | [], s => s
  | r :: rest, s => processFrames rest (captureFrame r s)

/-- Embeds resetScan: stop the camera and return every cell to its
initial value. -/
def resetScan (s : ScanState) : ScanState :=
  let s1 := stopCamera s
  { s1 with
      step := ScanStep.idle,
      handsDetectedLeft := false,
      handsDetectedRight := false,
      showVideo := false,
      scanning := false,
      detectionCount := 0 }

/-- Embeds requestCameraPermission: clear the error, bail out with a
loading message when the detection library is not loaded yet, otherwise
acquire the camera (granted is the outcome of getUserMedia), move to the
left-hand step and start scanning, or record the permission error. -/
def requestCameraPermission (granted : Bool) (s : ScanState) : ScanState :=
  let s1 := { s with error := "" }
  if s1.mediapipeLoaded = false then
    { s1 with error := "Please wait, loading hand detection library..." }
  else if granted then
    { s1 with streamActive := true, step := ScanStep.leftHand, scanning := true }
  else
    { s1 with error := "Camera permission denied. Please allow camera access to continue." }

/-- The state at session start: idle, zero tally, nothing confirmed. -/
def initialState : ScanState :=
  { step := ScanStep.idle
    detectionCount := 0
    handsDetectedLeft := false
    handsDetectedRight := false
    scanning := false
    error := ""
    mediapipeLoaded := false
    streamActive := false
    showVideo := false
    revealScheduled := false }

/-- The state right after a granted begin-session call: awaiting the left
hand with a fresh tally. -/
def leftReadyState : ScanState :=
  { step := ScanStep.leftHand
    detectionCount := 0
    handsDetectedLeft := false
    handsDetectedRight := false
    scanning := true
    error := ""
    mediapipeLoaded := true
    streamActive := true
    showVideo := false
    revealScheduled := false }

/-- A state awaiting the right hand after the left hand was confirmed. -/
def rightReadyState : ScanState :=
  { leftReadyState with step := ScanStep.rightHand, handsDetectedLeft := true }

/-- A state mid-tally: 15 qualifying observations already accumulated. -/
def midTallyState : ScanState :=
  { leftReadyState with detectionCount := 15 }

/-- A state one qualifying observation short of the threshold. -/
def tally29State : ScanState :=
  { leftReadyState with detectionCount := 29 }

/-- The state after both hands were confirmed: complete, camera stopped,
reveal scheduled. -/
def completeState : ScanState :=
  { leftReadyState with
      step := ScanStep.complete,
      handsDetectedLeft := true,
      handsDetectedRight := true,
      scanning := false,
      streamActive := false,
      revealScheduled := true }

/-! Helper lemmas shared by the claim proofs. -/

/-- handleScanSuccess always leaves the detection count at 0. -/
theorem handleScanSuccess_detectionCount (s : ScanState) :
    (handleScanSuccess s).detectionCount = 0 := by
  unfold handleScanSuccess stopCamera
  by_cases hl : s.handsDetectedLeft = false
  · simp [hl]
  · by_cases hr : s.handsDetectedRight = false <;> simp [hl, hr]

/-- Processing a concatenation of frame sequences is processing them in
order. -/
theorem processFrames_append (a b : List FrameResult) (s : ScanState) :
    processFrames (a ++ b) s = processFrames b (processFrames a s) := by
  induction a generalizing s with
  | nil => rfl
  | cons r rest ih => simp [processFrames, ih]

/-- A frame observed while the step is neither leftHand nor rightHand
changes no state cell. -/
theorem captureFrame_not_awaiting (r : FrameResult) (s : ScanState)
    (h1 : s.step ≠ ScanStep.leftHand) (h2 : s.step ≠ ScanStep.rightHand) :
    captureFrame r s = s := by
  cases r with
  | hands n =>
      unfold captureFrame onResults
      simp [h1, h2]
  | sendError => rfl

/-- Once the step is complete, a whole sequence of further frames changes
no state cell. -/
theorem processFrames_of_complete (l : List FrameResult) (s : ScanState)
    (h : s.step = ScanStep.complete) : processFrames l s = s := by
  induction l with
  | nil => rfl
  | cons r rest ih =>
      have hne1 : s.step ≠ ScanStep.leftHand := by rw [h]; intro hc; cases hc
      have hne2 : s.step ≠ ScanStep.rightHand := by rw [h]; intro hc; cases hc
      show processFrames rest (captureFrame r s) = s
      rw [captureFrame_not_awaiting r s hne1 hne2, ih]

/-- Below the threshold, a run of k one-hand frames in a hand-awaiting
step only adds k to the detection count. -/
theorem processFrames_replicate_hands (k : Nat) (s : ScanState)
    (hstep : s.step = ScanStep.leftHand ∨ s.step = ScanStep.rightHand)
    (hk : s.detectionCount + k < detectionThreshold) :
    processFrames (List.replicate k (FrameResult.hands 1)) s
      = { s with detectionCount := s.detectionCount + k } := by
  induction k generalizing s with
  | zero => simp [processFrames]
  | succ n ih =>
      have hlt : ¬ detectionThreshold ≤ s.detectionCount + 1 := by omega
      have hstep1 : captureFrame (FrameResult.hands 1) s
          = { s with detectionCount := s.detectionCount + 1 } := by
        unfold captureFrame onResults
        simp [hstep, hlt]
      rw [List.replicate_succ]
      show processFrames (List.replicate n (FrameResult.hands 1))
        (captureFrame (FrameResult.hands 1) s) = _
      rw [hstep1, ih]
      · simp
        omega
      · exact hstep
      · simp
        omega

/-- A one-hand frame arriving with the tally one short of the threshold
in a hand-awaiting step fires handleScanSuccess on the zeroed state. -/
theorem captureFrame_threshold (s : ScanState)
    (hstep : s.step = ScanStep.leftHand ∨ s.step = ScanStep.rightHand)
    (hc : detectionThreshold ≤ s.detectionCount + 1) :
    captureFrame (FrameResult.hands 1) s
      = handleScanSuccess { s with detectionCount := 0 } := by
  unfold captureFrame onResults
  simp [hstep, hc]

/-- One frame observation keeps the detection count strictly below the
threshold when it was below before. -/
theorem captureFrame_count_lt (r : FrameResult) (s : ScanState)
    (h : s.detectionCount < detectionThreshold) :
    (captureFrame r s).detectionCount < detectionThreshold := by
  cases r with
  | sendError => exact h
  | hands n =>
      unfold captureFrame onResults
      by_cases hn : 0 < n
      · by_cases hs : s.step = ScanStep.leftHand ∨ s.step = ScanStep.rightHand
        · by_cases ht : detectionThreshold ≤ s.detectionCount + 1
          · simp [hn, hs, ht, handleScanSuccess_detectionCount]
            decide
          · simp [hn, hs, ht]
            omega
        · simp [hn, hs]
          exact h
      · by_cases hs : s.step = ScanStep.leftHand ∨ s.step = ScanStep.rightHand
        · simp [hn, hs]
          decide
        · simp [hn, hs]
          exact h

/-- Any frame sequence keeps the detection count strictly below the
threshold when it was below before. -/
theorem processFrames_count_lt (l : List FrameResult) (s : ScanState)
    (h : s.detectionCount < detectionThreshold) :
    (processFrames l s).detectionCount < detectionThreshold := by
  induction l generalizing s with
  | nil => exact h
  | cons r rest ih => exact ih _ (captureFrame_count_lt r s h)

/-- From a hand-awaiting step with a fresh tally, 30 consecutive one-hand
frames end in handleScanSuccess applied to the zeroed state. -/
theorem processFrames_thirty (s : ScanState)
    (hstep : s.step = ScanStep.leftHand ∨ s.step = ScanStep.rightHand)
    (hc : s.detectionCount = 0) :
    processFrames (List.replicate 30 (FrameResult.hands 1)) s
      = handleScanSuccess { s with detectionCount := 0 } := by
  have hsplit : List.replicate 30 (FrameResult.hands 1)
      = List.replicate 29 (FrameResult.hands 1) ++ [FrameResult.hands 1] :=
    List.replicate_succ' 29 (FrameResult.hands 1)
  have hmid : processFrames (List.replicate 29 (FrameResult.hands 1)) s
      = { s with detectionCount := 29 } := by
    rw [processFrames_replicate_hands 29 s hstep (by rw [hc]; decide)]
    simp [hc]
  rw [hsplit, processFrames_append, hmid]
  show captureFrame (FrameResult.hands 1) { s with detectionCount := 29 }
      = handleScanSuccess { s with detectionCount := 0 }
  rw [captureFrame_threshold { s with detectionCount := 29 } hstep
    (by show detectionThreshold ≤ 29 + 1; decide)]

/-- handleScanSuccess flips at most one confirmation flag, and flips the
right flag only when the left flag was already set. -/
theorem handleScanSuccess_flags (s : ScanState) :
    ((handleScanSuccess s).handsDetectedLeft = true ∧ s.handsDetectedLeft = false →
      (handleScanSuccess s).handsDetectedRight = s.handsDetectedRight) ∧
    ((handleScanSuccess s).handsDetectedRight = true ∧ s.handsDetectedRight = false →
      s.handsDetectedLeft = true) := by
  unfold handleScanSuccess stopCamera
  cases hl : s.handsDetectedLeft <;> cases hr : s.handsDetectedRight <;> simp [hl, hr]

/-- Every frame observation either fires handleScanSuccess on the zeroed
state or leaves both confirmation flags unchanged. -/
theorem captureFrame_flags_cases (r : FrameResult) (s : ScanState) :
    captureFrame r s = handleScanSuccess { s with detectionCount := 0 } ∨
    ((captureFrame r s).handsDetectedLeft = s.handsDetectedLeft ∧
     (captureFrame r s).handsDetectedRight = s.handsDetectedRight) := by
  cases r with
  | sendError => exact Or.inr ⟨rfl, rfl⟩
  | hands n =>
      unfold captureFrame onResults
      by_cases hn : 0 < n
      · by_cases hs : s.step = ScanStep.leftHand ∨ s.step = ScanStep.rightHand
        · by_cases ht : detectionThreshold ≤ s.detectionCount + 1
          · left
            simp [hn, hs, ht]
          · right
            simp [hn, hs, ht]
        · right
          simp [hn, hs]
      · by_cases hs : s.step = ScanStep.leftHand ∨ s.step = ScanStep.rightHand
        · right
          simp [hn, hs]
        · right
          simp [hn, hs]

/-! Claim theorems. -/

/-- Claim C1, counterexample: an analysis error delivered while step is
leftHand with a tally of 15 leaves the tally at 15; it is not reset to 0
as the claim states, because the catch block around the send call only
logs and the results callback never fires for that frame. -/
theorem C1_counterexample :
    midTallyState.step = ScanStep.leftHand ∧
    midTallyState.detectionCount = 15 ∧
    (captureFrame FrameResult.sendError midTallyState).detectionCount = 15 ∧
    ¬ (captureFrame FrameResult.sendError midTallyState).detectionCount = 0 := by
  refine ⟨rfl, rfl, rfl, ?_⟩
  decide

/-- Claim C1 as amended: if the Landmark Detector signals an analysis
error for a frame while step is AwaitingLeftHand or AwaitingRightHand, the
frame is skipped: every state cell, the detection tally included, is left
unchanged (the tally is neither incremented nor reset), no user-visible
error is recorded, and the detection loop continues with the remaining
frames. -/
theorem C1_sendError_skips_frame (s : ScanState) (rest : List FrameResult)
    (hstep : s.step = ScanStep.leftHand ∨ s.step = ScanStep.rightHand) :
    (captureFrame FrameResult.sendError s).detectionCount = s.detectionCount ∧
    (captureFrame FrameResult.sendError s).error = s.error ∧
    captureFrame FrameResult.sendError s = s ∧
    processFrames (FrameResult.sendError :: rest) s = processFrames rest s :=
  ⟨rfl, rfl, rfl, rfl⟩

/-- Witness for C1 at a concrete mid-tally state. -/
theorem C1_sendError_skips_frame_witness :
    (captureFrame FrameResult.sendError midTallyState).detectionCount
        = midTallyState.detectionCount ∧
    (captureFrame FrameResult.sendError midTallyState).error = midTallyState.error ∧
    captureFrame FrameResult.sendError midTallyState = midTallyState ∧
    processFrames [FrameResult.sendError, FrameResult.hands 1] midTallyState
        = processFrames [FrameResult.hands 1] midTallyState :=
  C1_sendError_skips_frame midTallyState [FrameResult.hands 1] (Or.inl rfl)

/-- Claim C2: from the initial state, after processing any sequence of
frame observations the detection tally is strictly below the threshold;
moreover, whenever an increment would reach the threshold during a
hand-awaiting step, the tally is reset to 0 in that same processing
step. -/
theorem C2_tally_below_threshold (obs : List FrameResult) :
    (processFrames obs initialState).detectionCount < detectionThreshold ∧
    (∀ (s : ScanState) (n : Nat), 0 < n →
      (s.step = ScanStep.leftHand ∨ s.step = ScanStep.rightHand) →
      detectionThreshold ≤ s.detectionCount + 1 →
      (onResults n s).detectionCount = 0) := by
  constructor
  · exact processFrames_count_lt obs initialState (by decide)
  · intro s n hn hs ht
    unfold onResults
    simp [hn, hs, ht, handleScanSuccess_detectionCount]

/-- Witness for C2 at a concrete observation list and a concrete state
one observation short of the threshold. -/
theorem C2_tally_below_threshold_witness :
    (processFrames [FrameResult.hands 1] initialState).detectionCount
        < detectionThreshold ∧
    (onResults 1 tally29State).detectionCount = 0 :=
  ⟨(C2_tally_below_threshold [FrameResult.hands 1]).1,
   (C2_tally_below_threshold []).2 tally29State 1 (by decide) (Or.inl rfl) (by decide)⟩

/-- Claim C3: with the threshold at 30, from a state awaiting the left
hand with tally 0 and both confirmations false, exactly 30 consecutive
one-or-more-hand observations confirm the left hand, move the step to
rightHand, reset the tally to 0, and leave the right confirmation
false. -/
theorem C3_thirty_confirms_left (s : ScanState)
    (hstep : s.step = ScanStep.leftHand)
    (hc : s.detectionCount = 0)
    (hl : s.handsDetectedLeft = false)
    (hr : s.handsDetectedRight = false) :
    (processFrames (List.replicate 30 (FrameResult.hands 1)) s).handsDetectedLeft
        = true ∧
    (processFrames (List.replicate 30 (FrameResult.hands 1)) s).step
        = ScanStep.rightHand ∧
    (processFrames (List.replicate 30 (FrameResult.hands 1)) s).detectionCount = 0 ∧
    (processFrames (List.replicate 30 (FrameResult.hands 1)) s).handsDetectedRight
        = false := by
  rw [processFrames_thirty s (Or.inl hstep) hc]
  unfold handleScanSuccess
  simp [hl, hr]

/-- Witness for C3 at the concrete post-begin-session state. -/
theorem C3_thirty_confirms_left_witness :
    (processFrames (List.replicate 30 (FrameResult.hands 1))
        leftReadyState).handsDetectedLeft = true ∧
    (processFrames (List.replicate 30 (FrameResult.hands 1)) leftReadyState).step
        = ScanStep.rightHand ∧
    (processFrames (List.replicate 30 (FrameResult.hands 1))
        leftReadyState).detectionCount = 0 ∧
    (processFrames (List.replicate 30 (FrameResult.hands 1))
        leftReadyState).handsDetectedRight = false :=
  C3_thirty_confirms_left leftReadyState rfl rfl rfl rfl

/-- Claim C4: after the left hand is confirmed, 30 more consecutive
one-or-more-hand observations while awaiting the right hand confirm the
right hand, move the step to complete, stop the frame source and schedule
the delayed reveal of the terminal asset; afterwards no further
observation sequence changes any state cell until reset is invoked. -/
theorem C4_thirty_confirms_right (s : ScanState) (post : List FrameResult)
    (hstep : s.step = ScanStep.rightHand)
    (hc : s.detectionCount = 0)
    (hl : s.handsDetectedLeft = true)
    (hr : s.handsDetectedRight = false) :
    (processFrames (List.replicate 30 (FrameResult.hands 1)) s).handsDetectedRight
        = true ∧
    (processFrames (List.replicate 30 (FrameResult.hands 1)) s).step
        = ScanStep.complete ∧
    (processFrames (List.replicate 30 (FrameResult.hands 1)) s).streamActive
        = false ∧
    (processFrames (List.replicate 30 (FrameResult.hands 1)) s).revealScheduled
        = true ∧
    processFrames post (processFrames (List.replicate 30 (FrameResult.hands 1)) s)
        = processFrames (List.replicate 30 (FrameResult.hands 1)) s := by
  rw [processFrames_thirty s (Or.inr hstep) hc]
  have hfinal : handleScanSuccess { s with detectionCount := 0 }
      = { s with
            detectionCount := 0,
            scanning := false,
            handsDetectedRight := true,
            step := ScanStep.complete,
            streamActive := false,
            revealScheduled := true } := by
    unfold handleScanSuccess stopCamera
    simp [hl, hr]
  rw [hfinal]
  refine ⟨rfl, rfl, rfl, rfl, ?_⟩
  exact processFrames_of_complete post _ rfl

/-- Witness for C4 at the concrete state awaiting the right hand. -/
theorem C4_thirty_confirms_right_witness :
    (processFrames (List.replicate 30 (FrameResult.hands 1))
        rightReadyState).handsDetectedRight = true ∧
    (processFrames (List.replicate 30 (FrameResult.hands 1)) rightReadyState).step
        = ScanStep.complete ∧
    (processFrames (List.replicate 30 (FrameResult.hands 1))
        rightReadyState).streamActive = false ∧
    (processFrames (List.replicate 30 (FrameResult.hands 1))
        rightReadyState).revealScheduled = true ∧
    processFrames [FrameResult.hands 1, FrameResult.hands 0]
        (processFrames (List.replicate 30 (FrameResult.hands 1)) rightReadyState)
        = processFrames (List.replicate 30 (FrameResult.hands 1)) rightReadyState :=
  C4_thirty_confirms_right rightReadyState
    [FrameResult.hands 1, FrameResult.hands 0] rfl rfl rfl rfl

/-- Claim C5: with the threshold at 30, from a hand-awaiting step with
tally 0, 29 consecutive one-or-more-hand observations followed by one
zero-hand observation leave the tally at 0 and confirm nothing: the step
and both confirmation flags are unchanged. -/
theorem C5_29_then_none (s : ScanState)
    (hstep : s.step = ScanStep.leftHand ∨ s.step = ScanStep.rightHand)
    (hc : s.detectionCount = 0) :
    (processFrames (List.replicate 29 (FrameResult.hands 1) ++ [FrameResult.hands 0])
        s).detectionCount = 0 ∧
    (processFrames (List.replicate 29 (FrameResult.hands 1) ++ [FrameResult.hands 0])
        s).step = s.step ∧
    (processFrames (List.replicate 29 (FrameResult.hands 1) ++ [FrameResult.hands 0])
        s).handsDetectedLeft = s.handsDetectedLeft ∧
    (processFrames (List.replicate 29 (FrameResult.hands 1) ++ [FrameResult.hands 0])
        s).handsDetectedRight = s.handsDetectedRight := by
  rw [processFrames_append,
    processFrames_replicate_hands 29 s hstep (by rw [hc]; decide)]
  simp only [processFrames]
  unfold captureFrame onResults
  simp [hstep]

/-- Witness for C5 at the concrete post-begin-session state. -/
theorem C5_29_then_none_witness :
    (processFrames (List.replicate 29 (FrameResult.hands 1) ++ [FrameResult.hands 0])
        leftReadyState).detectionCount = 0 ∧
    (processFrames (List.replicate 29 (FrameResult.hands 1) ++ [FrameResult.hands 0])
        leftReadyState).step = leftReadyState.step ∧
    (processFrames (List.replicate 29 (FrameResult.hands 1) ++ [FrameResult.hands 0])
        leftReadyState).handsDetectedLeft = leftReadyState.handsDetectedLeft ∧
    (processFrames (List.replicate 29 (FrameResult.hands 1) ++ [FrameResult.hands 0])
        leftReadyState).handsDetectedRight = leftReadyState.handsDetectedRight :=
  C5_29_then_none leftReadyState (Or.inl rfl) rfl

/-- Claim C6: an observation delivered while the step is neither
leftHand nor rightHand (in particular idle or complete, including a
result from an analysis that was already in flight) leaves the step, the
tally and both confirmation flags unchanged. -/
theorem C6_ignored_when_not_awaiting (s : ScanState) (r : FrameResult)
    (h1 : s.step ≠ ScanStep.leftHand) (h2 : s.step ≠ ScanStep.rightHand) :
    (captureFrame r s).step = s.step ∧
    (captureFrame r s).detectionCount = s.detectionCount ∧
    (captureFrame r s).handsDetectedLeft = s.handsDetectedLeft ∧
    (captureFrame r s).handsDetectedRight = s.handsDetectedRight := by
  rw [captureFrame_not_awaiting r s h1 h2]
  exact ⟨rfl, rfl, rfl, rfl⟩

/-- Witness for C6 at the concrete completed state with a two-hand
observation. -/
theorem C6_ignored_when_not_awaiting_witness :
    (captureFrame (FrameResult.hands 2) completeState).step = completeState.step ∧
    (captureFrame (FrameResult.hands 2) completeState).detectionCount
        = completeState.detectionCount ∧
    (captureFrame (FrameResult.hands 2) completeState).handsDetectedLeft
        = completeState.handsDetectedLeft ∧
    (captureFrame (FrameResult.hands 2) completeState).handsDetectedRight
        = completeState.handsDetectedRight :=
  C6_ignored_when_not_awaiting completeState (FrameResult.hands 2)
    (by decide) (by decide)

/-- Claim C7: one observation produces at most one confirmation: it
never sets both confirmation flags in the same processing step, and the
right confirmation can only become true in a call where the left
confirmation was already true beforehand. -/
theorem C7_one_confirmation_per_event (s : ScanState) (r : FrameResult) :
    ((captureFrame r s).handsDetectedLeft = true ∧ s.handsDetectedLeft = false →
      (captureFrame r s).handsDetectedRight = s.handsDetectedRight) ∧
    ((captureFrame r s).handsDetectedRight = true ∧ s.handsDetectedRight = false →
      s.handsDetectedLeft = true) := by
  rcases captureFrame_flags_cases r s with h | ⟨h1, h2⟩
  · rw [h]
    exact handleScanSuccess_flags { s with detectionCount := 0 }
  · constructor
    · intro _
      exact h2
    · rintro ⟨ha, hb⟩
      rw [h2] at ha
      rw [ha] at hb
      exact Bool.noConfusion hb

/-- Witness for C7 at a concrete threshold-reaching observation from the
state one short of the threshold. -/
theorem C7_one_confirmation_per_event_witness :
    ((captureFrame (FrameResult.hands 1) tally29State).handsDetectedLeft = true ∧
      tally29State.handsDetectedLeft = false →
      (captureFrame (FrameResult.hands 1) tally29State).handsDetectedRight
        = tally29State.handsDetectedRight) ∧
    ((captureFrame (FrameResult.hands 1) tally29State).handsDetectedRight = true ∧
      tally29State.handsDetectedRight = false →
      tally29State.handsDetectedLeft = true) :=
  C7_one_confirmation_per_event tally29State (FrameResult.hands 1)

/-- Claim C8: resetScan from any state returns the step to idle, the
tally to 0 and both confirmations to false. -/
theorem C8_reset_restores_initial (s : ScanState) :
    (resetScan s).step = ScanStep.idle ∧
    (resetScan s).detectionCount = 0 ∧
    (resetScan s).handsDetectedLeft = false ∧
    (resetScan s).handsDetectedRight = false :=
  ⟨rfl, rfl, rfl, rfl⟩

/-- Witness for C8 at a concrete completed state. -/
theorem C8_reset_restores_initial_witness :
    (resetScan completeState).step = ScanStep.idle ∧
    (resetScan completeState).detectionCount = 0 ∧
    (resetScan completeState).handsDetectedLeft = false ∧
    (resetScan completeState).handsDetectedRight = false :=
  C8_reset_restores_initial completeState

/-- Claim C9: invoking the begin-session entry point before the detection
library has loaded records the loading message and returns without
starting the frame source: the step stays idle and the tally, both
confirmation flags, the scanning flag and the stream are unchanged. -/
theorem C9_begin_before_loaded (s : ScanState) (granted : Bool)
    (hload : s.mediapipeLoaded = false) (hstep : s.step = ScanStep.idle) :
    (requestCameraPermission granted s).error
        = "Please wait, loading hand detection library..." ∧
    (requestCameraPermission granted s).step = ScanStep.idle ∧
    (requestCameraPermission granted s).detectionCount = s.detectionCount ∧
    (requestCameraPermission granted s).handsDetectedLeft = s.handsDetectedLeft ∧
    (requestCameraPermission granted s).handsDetectedRight = s.handsDetectedRight ∧
    (requestCameraPermission granted s).scanning = s.scanning ∧
    (requestCameraPermission granted s).streamActive = s.streamActive := by
  unfold requestCameraPermission
  simp [hload, hstep]

/-- Witness for C9 at the initial state, for either permission outcome. -/
theorem C9_begin_before_loaded_witness :
    (requestCameraPermission true initialState).error
        = "Please wait, loading hand detection library..." ∧
    (requestCameraPermission true initialState).step = ScanStep.idle ∧
    (requestCameraPermission true initialState).detectionCount
        = initialState.detectionCount ∧
    (requestCameraPermission true initialState).handsDetectedLeft
        = initialState.handsDetectedLeft ∧
    (requestCameraPermission true initialState).handsDetectedRight
        = initialState.handsDetectedRight ∧
    (requestCameraPermission true initialState).scanning = initialState.scanning ∧
    (requestCameraPermission true initialState).streamActive
        = initialState.streamActive :=
  C9_begin_before_loaded initialState true rfl rfl

/-- Claim C10: a threshold-reaching event delivered when both hands are
already confirmed changes neither the step nor either confirmation flag,
does not stop the stream and does not schedule the reveal; it only clears
the scanning flag and resets the tally to 0. -/
theorem C10_both_confirmed_noop (s : ScanState)
    (hl : s.handsDetectedLeft = true) (hr : s.handsDetectedRight = true) :
    (handleScanSuccess s).step = s.step ∧
    (handleScanSuccess s).handsDetectedLeft = s.handsDetectedLeft ∧
    (handleScanSuccess s).handsDetectedRight = s.handsDetectedRight ∧
    (handleScanSuccess s).streamActive = s.streamActive ∧
    (handleScanSuccess s).revealScheduled = s.revealScheduled ∧
    (handleScanSuccess s).showVideo = s.showVideo ∧
    (handleScanSuccess s).scanning = false ∧
    (handleScanSuccess s).detectionCount = 0 := by
  unfold handleScanSuccess
  simp [hl, hr]

/-- Witness for C10 at a concrete completed state. -/
theorem C10_both_confirmed_noop_witness :
    (handleScanSuccess completeState).step = completeState.step ∧
    (handleScanSuccess completeState).handsDetectedLeft
        = completeState.handsDetectedLeft ∧
    (handleScanSuccess completeState).handsDetectedRight
        = completeState.handsDetectedRight ∧
    (handleScanSuccess completeState).streamActive = completeState.streamActive ∧
    (handleScanSuccess completeState).revealScheduled
        = completeState.revealScheduled ∧
    (handleScanSuccess completeState).showVideo = completeState.showVideo ∧
    (handleScanSuccess completeState).scanning = false ∧
    (handleScanSuccess completeState).detectionCount = 0 :=
  C10_both_confirmed_noop completeState rfl rfl

end FuturePrediction

